import Mathlib

/-!
Verification of `rx888_stream` (src/rx888_stream.c).

The C program is shallowly embedded here:

* The sample post-processor (the `randomizer` branch of `transfer_callback`,
  lines 83-87) acts on the buffer viewed as 16-bit little-endian samples;
  we embed bytes as `Nat` values `< 256` and samples as `Nat` values `< 65536`.
* The completion callback `transfer_callback` (lines 68-97) becomes a pure
  function from an explicit state plus the outcomes of the external calls
  (transfer status, `write` return value, `libusb_submit_transfer` return
  value) to a new state plus a record of its observable actions.
* The transfer pipeline (initial submission loop lines 468-475, callback,
  drain loop lines 508-512) becomes a labelled transition system on a pool
  state; the claimed counter invariant is proved over all reachable states.
* The clock estimator `actual_freq` (lines 152-193) is embedded with exact
  arithmetic: every C `double` value occurring for the inputs of interest is
  an integer below 2^53 and obtained exactly, except the quotient
  `l * 1048575 / xtalFreq`, whose truncation to `uint32_t` we model as the
  rational floor (exact whenever the rational value is not within one double
  ulp below an integer, which holds at every concrete input used here).
* Option handling in `main` (lines 202-320) becomes a fold over a list of
  already-lexed option/argument pairs, including the `c == 0` flag path of
  lines 227-231, whose `break` leaves the option loop entirely when a
  long-form flag option is seen; `strtoul`/`strtol` string scanning is out
  of scope, so numeric arguments arrive as the numbers the C code would
  obtain from them.
-/

/-! ### Sample post-processor (transfer_callback, lines 83-87)

`samples[i] ^= 0xfffe * (samples[i] & 1);` on a `uint16_t`. -/

/-- One 16-bit sample transformed as in line 85 of the C source:
XOR with `0xfffe` exactly when bit 0 is set. -/
def transform_sample (s : Nat) : Nat :=
  s ^^^ (0xfffe * (s &&& 1))

/-- The in-place loop of lines 84-86: the byte buffer is reinterpreted as
16-bit little-endian samples (`uint16_t *samples = (uint16_t *)buffer`),
`size / 2` samples are transformed, and a trailing odd byte is untouched. -/
def randomize : List Nat → List Nat
  | [] => []
  | [b] => [b]
  | lo :: hi :: rest =>
    let s := transform_sample (lo + 256 * hi)
    s % 256 :: s / 256 :: randomize rest

theorem transform_sample_even (s : Nat) (h : s % 2 = 0) : transform_sample s = s := by
  unfold transform_sample
  rw [Nat.and_one_is_mod, h, Nat.mul_zero, Nat.xor_zero]

theorem transform_sample_odd (s : Nat) (h : s % 2 = 1) :
    transform_sample s = s ^^^ 0xfffe := by
  unfold transform_sample
  rw [Nat.and_one_is_mod, h]

theorem transform_sample_mod_two (s : Nat) : transform_sample s % 2 = s % 2 := by
  rcases Nat.mod_two_eq_zero_or_one s with h | h
  · rw [transform_sample_even s h, h]
  · rw [transform_sample_odd s h]
    rw [← Nat.and_one_is_mod, Nat.and_xor_distrib_right, Nat.and_one_is_mod,
      Nat.and_one_is_mod, h]
    rfl

theorem transform_sample_lt (s : Nat) (h : s < 65536) : transform_sample s < 65536 := by
  rcases Nat.mod_two_eq_zero_or_one s with hp | hp
  · rwa [transform_sample_even s hp]
  · rw [transform_sample_odd s hp]
    have h2 : s ^^^ 65534 < 2 ^ 16 :=
      Nat.xor_lt_two_pow (by norm_num; exact h) (by norm_num)
    norm_num at h2
    exact h2

theorem transform_sample_involutive (s : Nat) :
    transform_sample (transform_sample s) = s := by
  rcases Nat.mod_two_eq_zero_or_one s with hp | hp
  · rw [transform_sample_even s hp, transform_sample_even s hp]
  · have h1 : transform_sample s % 2 = 1 := by rw [transform_sample_mod_two, hp]
    rw [transform_sample_odd s hp] at h1 ⊢
    rw [transform_sample_odd _ h1, Nat.xor_assoc, Nat.xor_self, Nat.xor_zero]

theorem randomize_involutive (l : List Nat) (hb : ∀ b ∈ l, b < 256) :
    randomize (randomize l) = l := by
  induction l using randomize.induct with
  | case1 => rfl
  | case2 b => rfl
  | case3 lo hi rest ih =>
    have hlo : lo < 256 := hb lo (by simp)
    have hhi : hi < 256 := hb hi (by simp)
    have hs : lo + 256 * hi < 65536 := by omega
    have hs2 : transform_sample (lo + 256 * hi) < 65536 := transform_sample_lt _ hs
    simp only [randomize]
    rw [Nat.mod_add_div (transform_sample (lo + 256 * hi)) 256,
      transform_sample_involutive]
    rw [Nat.add_mul_mod_self_left, Nat.mod_eq_of_lt hlo]
    rw [Nat.add_mul_div_left lo hi (by norm_num), Nat.div_eq_of_lt hlo, Nat.zero_add]
    rw [ih (fun b h => hb b (by simp [h]))]

theorem randomize_append_single (l : List Nat) (b : Nat) (h : l.length % 2 = 0) :
    randomize (l ++ [b]) = randomize l ++ [b] := by
  induction l using randomize.induct with
  | case1 => rfl
  | case2 c => simp at h
  | case3 lo hi rest ih =>
    simp only [List.cons_append, randomize, List.append_eq]
    rw [ih (by simp at h; omega)]

/-! ### Completion callback (transfer_callback, lines 68-97)

The callback's external interactions are made explicit inputs/outputs:
the completion status of the transfer, the bytes the hardware delivered
(`transfer->buffer[0 .. actual_length)`), the return value of `write`, and
the return value of `libusb_submit_transfer` (0 means success). -/

/-- `transfer->status`: `LIBUSB_TRANSFER_COMPLETED` versus every other value. -/
inductive TransferStatus
  | completed
  | error
  deriving DecidableEq

/-- The global variables of the C program that `transfer_callback` reads or
writes, plus `output`, the byte stream written to stdout so far. -/
structure CbState where
  xfers_in_progress : Int
  success_count : Nat
  failure_count : Nat
  stop_transfers : Bool
  randomizer : Bool
  output : List Nat
  deriving DecidableEq

/-- What one invocation of `transfer_callback` did: the new state and a record
of the observable actions (stderr logging, `write`, resubmission). -/
structure CbResult where
  state : CbState
  wroteToSink : Bool
  loggedTransferError : Bool
  loggedWriteError : Bool
  resubmitCalled : Bool
  resubmitted : Bool
  deriving DecidableEq

/-- Lines 68-97 of the C source.  `writeRet` is the value `write` returns
(callees' effects are inputs), `submitRet` the value `libusb_submit_transfer`
returns.  The counter is decremented once on entry; on non-success status only
`failure_count` changes and nothing is written; on success the buffer is
transformed in place when `randomizer` is set and then written; finally the
transfer is resubmitted unless `stop_transfers` is set, the counter being
incremented exactly when resubmission returns 0. -/
def transfer_callback (st : CbState) (status : TransferStatus) (buf : List Nat)
    (writeRet : Int) (submitRet : Int) : CbResult :=
  let st1 : CbState := { st with xfers_in_progress := st.xfers_in_progress - 1 }
  let mid : CbState × Bool × Bool × Bool :=
    match status with
    | .error =>
      ({ st1 with failure_count := st1.failure_count + 1 }, false, true, false)
    | .completed =>
      let buf2 := if st.randomizer then randomize buf else buf
      ({ st1 with
          success_count := st1.success_count + 1,
          output := st1.output ++ buf2 },
        true, false, decide (writeRet < 0))
  if st.stop_transfers then
    { state := mid.1, wroteToSink := mid.2.1, loggedTransferError := mid.2.2.1,
      loggedWriteError := mid.2.2.2, resubmitCalled := false, resubmitted := false }
  else if submitRet = 0 then
    { state := { mid.1 with xfers_in_progress := mid.1.xfers_in_progress + 1 },
      wroteToSink := mid.2.1, loggedTransferError := mid.2.2.1,
      loggedWriteError := mid.2.2.2, resubmitCalled := true, resubmitted := true }
  else
    { state := mid.1, wroteToSink := mid.2.1, loggedTransferError := mid.2.2.1,
      loggedWriteError := mid.2.2.2, resubmitCalled := true, resubmitted := false }

/-- One pass of the drain loop body (lines 508-512): the completions
`libusb_handle_events` delivers, each handled by `transfer_callback`. -/
structure DrainEvent where
  status : TransferStatus
  buf : List Nat
  writeRet : Int
  submitRet : Int

/-- The drain loop of lines 508-512: keep handling completion events;
the loop exits when `xfers_in_progress` reaches 0, which under
`stop_transfers = true` happens exactly after one event per in-flight
transfer, as no handled event resubmits. -/
def drainLoop (st : CbState) : List DrainEvent → CbState
  | [] => st
  | e :: rest =>
    drainLoop (transfer_callback st e.status e.buf e.writeRet e.submitRet).state rest

/-- The vendor commands `main` can issue (lines 487-497 and 515). -/
inductive Command
  | GPIOFX3 (arg : Nat)
  | DAT31_ATT (arg : Nat)
  | AD8340_VGA (arg : Nat)
  | STARTADC (arg : Nat)
  | STARTFX3
  | TUNERSTDBY
  | STOPFX3
  deriving DecidableEq

/-- Lines 505-515 of `main`: after the main loop exits, `stop_transfers` is
set, the drain loop runs, and then the single `STOPFX3` command is sent. -/
def main_epilogue (st : CbState) (events : List DrainEvent) : CbState × List Command :=
  let st2 := drainLoop { st with stop_transfers := true } events
  (st2, [Command.STOPFX3])

/-! ### Transfer pipeline transition system (submission loop lines 468-475,
callback lines 68-97, signal handler line 129, drain loop lines 508-512)

The per-slot view of the pipeline: each of the `queuedepth` transfers is
either idle (allocated, not submitted) or submitted to the hardware.
`xfers_in_progress` is incremented exactly when `libusb_submit_transfer`
returns 0 (lines 94-95 and 472-474) and decremented exactly once at the top
of every completion callback (line 72). -/

/-- Ownership state of one transfer slot. -/
inductive SlotState
  | idle
  | submitted
  deriving DecidableEq

/-- The pipeline state: the slot array plus the shared counters and flag. -/
structure PoolState where
  slots : List SlotState
  xfers_in_progress : Int
  stop_transfers : Bool
  success_count : Nat
  failure_count : Nat
  deriving DecidableEq

/-- State just after allocation (lines 460-466): `queuedepth` idle slots,
no transfer in flight. -/
def initPool (q : Nat) : PoolState :=
  { slots := List.replicate q .idle, xfers_in_progress := 0,
    stop_transfers := false, success_count := 0, failure_count := 0 }

/-- Number of slots currently submitted to the hardware. -/
def countSubmitted : List SlotState → Nat
  | [] => 0
  | s :: rest => (if s = .submitted then 1 else 0) + countSubmitted rest

/-- The pipeline's atomic transitions.

* `submit`: lines 472-474 (also 94-95): a submission of an idle slot returns
  0, the slot passes to the hardware and the counter is incremented.
* `submit_fail`: the same call returns nonzero; nothing changes.
* `complete`: one run of `transfer_callback` on a submitted slot
  (lines 68-97): the counter is decremented; `success_count` or
  `failure_count` is incremented according to the status; unless
  `stop_transfers` is set the slot is resubmitted, the counter being
  re-incremented exactly when the resubmission succeeds.
* `sigstop`: the signal handler (line 129) sets `stop_transfers`. -/
inductive PoolStep : PoolState → PoolState → Prop
  | submit (s : PoolState) (i : Nat) (hi : i < s.slots.length)
      (hidle : s.slots.get ⟨i, hi⟩ = .idle) :
      PoolStep s { s with
        slots := s.slots.set i SlotState.submitted,
        xfers_in_progress := s.xfers_in_progress + 1 }
  | submit_fail (s : PoolState) (i : Nat) (hi : i < s.slots.length)
      (hidle : s.slots.get ⟨i, hi⟩ = .idle) : PoolStep s s
  | complete (s : PoolState) (i : Nat) (ok resubmitOk : Bool)
      (hi : i < s.slots.length) (hsub : s.slots.get ⟨i, hi⟩ = .submitted) :
      PoolStep s
        { s with
          slots := s.slots.set i
            (if !s.stop_transfers && resubmitOk then SlotState.submitted
             else SlotState.idle),
          xfers_in_progress := s.xfers_in_progress - 1 +
            (if !s.stop_transfers && resubmitOk then 1 else 0),
          success_count := s.success_count + (if ok then 1 else 0),
          failure_count := s.failure_count + (if ok then 0 else 1) }
  | sigstop (s : PoolState) : PoolStep s { s with stop_transfers := true }

/-- States the pipeline can reach from startup with queue depth `q`. -/
def PoolReachable (q : Nat) (s : PoolState) : Prop :=
  Relation.ReflTransGen PoolStep (initPool q) s

theorem countSubmitted_le_length (l : List SlotState) : countSubmitted l ≤ l.length := by
  induction l with
  | nil => simp [countSubmitted]
  | cons s rest ih =>
    simp only [countSubmitted, List.length_cons]
    split <;> omega

theorem countSubmitted_set (l : List SlotState) (i : Nat) (v : SlotState)
    (hi : i < l.length) :
    countSubmitted (l.set i v) + (if l.get ⟨i, hi⟩ = .submitted then 1 else 0) =
      countSubmitted l + (if v = .submitted then 1 else 0) := by
  induction l generalizing i with
  | nil => simp at hi
  | cons s rest ih =>
    cases i with
    | zero => simp [countSubmitted]; split <;> split <;> omega
    | succ j =>
      have hj : j < rest.length := by simpa using hi
      have := ih j hj
      simp only [List.set_cons_succ, countSubmitted, List.get_cons_succ]
      omega

/-- The inductive invariant: the slot array keeps its size and the counter
equals the number of submitted slots. -/
def PoolInv (q : Nat) (s : PoolState) : Prop :=
  s.slots.length = q ∧ s.xfers_in_progress = (countSubmitted s.slots : Int)

theorem poolInv_init (q : Nat) : PoolInv q (initPool q) := by
  constructor
  · simp [initPool]
  · simp only [initPool]
    induction q with
    | zero => simp [countSubmitted]
    | succ n ih => simp [List.replicate_succ, countSubmitted]; simpa using ih

theorem poolInv_step (q : Nat) (s t : PoolState) (hst : PoolStep s t)
    (hinv : PoolInv q s) : PoolInv q t := by
  obtain ⟨hlen, hcount⟩ := hinv
  cases hst with
  | submit i hi hidle =>
    have hset := countSubmitted_set s.slots i .submitted hi
    rw [hidle] at hset
    simp only [PoolInv, List.length_set]
    constructor
    · exact hlen
    · simp only [hcount]
      simp at hset
      omega
  | submit_fail i hi hidle => exact ⟨hlen, hcount⟩
  | complete i ok resubmitOk hi hsub =>
    have hset := countSubmitted_set s.slots i
      (if !s.stop_transfers && resubmitOk then .submitted else .idle) hi
    rw [hsub] at hset
    simp only [PoolInv, List.length_set]
    constructor
    · exact hlen
    · cases hcond : (!s.stop_transfers && resubmitOk) with
      | true =>
        simp only [hcond] at hset ⊢
        simp at hset ⊢
        omega
      | false =>
        simp only [hcond] at hset ⊢
        simp at hset ⊢
        omega
  | sigstop => exact ⟨hlen, hcount⟩

theorem poolInv_reachable (q : Nat) (s : PoolState) (h : PoolReachable q s) :
    PoolInv q s := by
  induction h with
  | refl => exact poolInv_init q
  | tail hsteps hstep ih => exact poolInv_step q _ _ hstep ih

/-! ### Clock estimator (actual_freq, lines 152-193)

All `double` values the C function manipulates are modelled exactly:

* `frequency` is integral (callers pass the validated integer sample rate)
  and the doubling loop, the divisions `900000000UL / frequency` and
  `pllFreq / xtalFreq`, the product `divider * frequency` and the remainder
  `pllFreq % xtalFreq` are exact integer computations for such inputs (each
  value stays far below 2^53, and truncating the correctly-rounded double
  quotient equals the integer floor because an integer quotient of values
  below 2^30 is never within one double ulp below an integer).
* `f = l * 1048575 / xtalFreq` followed by `num = (uint32_t)f` is modelled as
  the rational floor `l * 1048575 / xtalFreq` in natural-number division;
  this too is exact: `l < xtalFreq ≤ 27000000`, so the product is below 2^45
  and the fractional part of the true quotient lies at distance at least
  `1/xtalFreq > 2^-25` from every integer, while the double rounding error
  is below 2^-13 of an ulp of that.
* The final two multiplications/divisions (lines 183 and 188) are modelled as
  exact rational arithmetic; the returned `double` agrees with the rational
  value up to a relative error of a few units in 2^52, which no claim here
  distinguishes. -/

/-- The doubling loop of lines 153-154.  The `0 < f` test is added to make
the function total: the C loop diverges on input 0, which no caller can pass
(the sample rate is validated to be at least 1000000 beforehand). -/
def normalizeFreq (f : Nat) : Nat :=
  if h : 0 < f ∧ f < 1000000 then normalizeFreq (2 * f) else f
termination_by 1000000 - f
decreasing_by omega

/-- Lines 158-160: `divider = 900000000UL / frequency`, made even by
decrementing when odd. -/
def pll_divider (f : Nat) : Nat :=
  let d := 900000000 / f
  if d % 2 = 1 then d - 1 else d

/-- Line 163: `pllFreq = divider * frequency`. -/
def pll_freq (f : Nat) : Nat :=
  pll_divider f * f

/-- Line 169: `uint8_t mult = pllFreq / xtalFreq` (note the `uint8_t` cast). -/
def pll_mult (f xtal : Nat) : Nat :=
  (pll_freq f / xtal) % 256

/-- Line 175: `l = pllFreq % xtalFreq`. -/
def pll_rem (f xtal : Nat) : Nat :=
  pll_freq f % xtal

/-- Lines 176-179: `num = (uint32_t)((double)l * 1048575 / xtalFreq)`,
i.e. the floor of `l * 1048575 / xtalFreq` (see the section comment). -/
def pll_num (f xtal : Nat) : Nat :=
  pll_rem f xtal * 1048575 / xtal

/-- Lines 152-192: the value `actual_freq` returns,
`xtalFreq * (mult + num / denom) / divider` with `denom = 1048575`. -/
def actual_freq (frequency xtal : Nat) : ℚ :=
  let f := normalizeFreq frequency
  (xtal : ℚ) * ((pll_mult f xtal : ℚ) + (pll_num f xtal : ℚ) / 1048575) /
    (pll_divider f : ℚ)

theorem normalizeFreq_of_ge (f : Nat) (h : 1000000 ≤ f) : normalizeFreq f = f := by
  rw [normalizeFreq, dif_neg]
  omega

theorem normalizeFreq_ge (f : Nat) (h : 0 < f) : 1000000 ≤ normalizeFreq f := by
  induction f using normalizeFreq.induct with
  | case1 f hc ih => rw [normalizeFreq, dif_pos hc]; exact ih (by omega)
  | case2 f hc => rw [normalizeFreq, dif_neg hc]; omega

theorem normalizeFreq_doubling (f : Nat) : ∃ k, normalizeFreq f = 2 ^ k * f := by
  induction f using normalizeFreq.induct with
  | case1 f hc ih =>
    obtain ⟨k, hk⟩ := ih
    exact ⟨k + 1, by rw [normalizeFreq, dif_pos hc, hk]; ring⟩
  | case2 f hc => exact ⟨0, by rw [normalizeFreq, dif_neg hc]; ring⟩

theorem pll_divider_le (f : Nat) : pll_divider f ≤ 900000000 / f := by
  have hd : pll_divider f =
      if (900000000 / f) % 2 = 1 then 900000000 / f - 1 else 900000000 / f := rfl
  rw [hd]
  generalize 900000000 / f = d
  split <;> omega

theorem pll_freq_le (f : Nat) : pll_freq f ≤ 900000000 := by
  rcases Nat.eq_zero_or_pos f with hf | hf
  · simp [pll_freq, hf]
  · calc pll_freq f ≤ 900000000 / f * f :=
          Nat.mul_le_mul_right f (pll_divider_le f)
      _ ≤ 900000000 := Nat.div_mul_le_self _ _

theorem pll_mult_eq (f xtal : Nat) (hx : xtal = 10000000 ∨ xtal = 27000000) :
    pll_mult f xtal = pll_freq f / xtal := by
  unfold pll_mult
  refine Nat.mod_eq_of_lt ?_
  have h9 := pll_freq_le f
  rcases hx with hx | hx <;> subst hx
  · have := Nat.div_le_div_right (c := 10000000) h9
    omega
  · have := Nat.div_le_div_right (c := 27000000) h9
    omega

/-! ### Gain byte and option processing (main, lines 195-320)

`unsigned int gain = 0x80;` (line 198) and the two mutations:
line 265 `gain |= 0x80`, line 267 `gain &= ~0x80` (on a 32-bit unsigned,
`~0x80 = 0xffffff7f`), lines 282-283 `gain &= ~0x7f; gain |= gainvalue`
(`~0x7f = 0xffffff80`). -/

/-- Line 198: the default gain byte. -/
def gain_default : Nat := 0x80

/-- Line 265: `gain |= 0x80` for `--gainmode high`. -/
def gain_mode_high (g : Nat) : Nat := g ||| 0x80

/-- Line 267: `gain &= ~0x80` for `--gainmode low`. -/
def gain_mode_low (g : Nat) : Nat := g &&& 0xffffff7f

/-- Lines 282-283: `gain &= ~0x7f; gain |= gainvalue`. -/
def gain_set_value (g v : Nat) : Nat := (g &&& 0xffffff80) ||| v

/-- One lexed command-line option together with the argument value the C
code obtains from its text (`strtoul`/`strtol` string scanning is external;
a negative attenuation, queue depth or request size argument reaches the
check as its value modulo 2^32 because the C variables are unsigned).

Five long options carry a non-NULL flag pointer (lines 204-207, 214:
`--verbose`, `--firmware`, `--dither`, `--rand`, `--refclock-10M`): given in
long form, `getopt_long` stores `val` into the flag variable and returns 0,
and the `break` at line 229 — whose nearest enclosing breakable construct is
the `while (1)`, not a switch — then terminates the whole option loop.
`longForm` distinguishes that path from the short options `-f -d -r -T`,
which reach the `switch`.  `--verbose` has no short form (`v` is absent from
the short-option string, so `case 'v':` is dead code) and therefore always
takes the flag path. -/
inductive CliOpt
  | verbose
  | firmware (longForm : Bool)
  | dither (longForm : Bool)
  | rand (longForm : Bool)
  | refclock10M (longForm : Bool)
  | samplerate (v : Nat)
  | gainmode (s : String)
  | gain (v : Int)
  | att (v : Nat)
  | queuedepth (v : Nat)
  | reqsize (v : Nat)
  deriving DecidableEq

/-- The configuration the option loop of `main` accumulates.  `firmware`
records whether the `firmware` path pointer (line 46) is non-NULL; the
write-only variables `has_firmware` and `refclock_10M`, which no code ever
reads, are not tracked. -/
structure Config where
  samplerate : Nat
  gain : Nat
  att : Nat
  queuedepth : Nat
  reqsize : Nat
  randomizer : Bool
  dither : Bool
  xtalFreq : Nat
  verbose : Nat
  firmware : Bool
  deriving DecidableEq

/-- Lines 42-46, 63-66, 197-199: the values before option processing. -/
def initConfig : Config :=
  { samplerate := 32000000, gain := gain_default, att := 0, queuedepth := 16,
    reqsize := 8, randomizer := false, dither := false, xtalFreq := 27000000,
    verbose := 0, firmware := false }

/-- Does this option take the `c == 0` flag path of lines 227-231
(a long option whose `struct option` entry has a non-NULL flag pointer)? -/
def isFlagLongOpt : CliOpt → Bool
  | .verbose => true
  | .firmware b => b
  | .dither b => b
  | .rand b => b
  | .refclock10M b => b
  | _ => false

/-- The store `*flag = val` that `getopt_long` itself performs for a
long-form flag option before the `break` at line 229 runs.  This preserves
two consequences of the flag entries: `--firmware` stores only into the
never-read `has_firmware` (its required argument is discarded and the
`firmware` path pointer stays NULL), and `--refclock-10M` stores only into
the never-read `refclock_10M` (`xtalFreq` keeps its default, although the
README documents this option as selecting the 10 MHz reference clock). -/
def applyFlagLong (cfg : Config) : CliOpt → Config
  | .verbose => { cfg with verbose := 1 }
  | .dither _ => { cfg with dither := true }
  | .rand _ => { cfg with randomizer := true }
  | _ => cfg

/-- One iteration of the `switch` in lines 232-319 (reached only by options
that do not take the flag path).  `none` is the `printhelp(); return 0;`
path taken for an out-of-range value. -/
def applyOpt (cfg : Config) : CliOpt → Option Config
  | .verbose => some { cfg with verbose := 1 }
  | .firmware _ => some { cfg with firmware := true }
  | .dither _ => some { cfg with dither := true }
  | .rand _ => some { cfg with randomizer := true }
  | .refclock10M _ => some { cfg with xtalFreq := 10000000 }
  | .samplerate v =>
    if v < 1000000 then none else some { cfg with samplerate := v }
  | .gainmode s =>
    if s = "high" then some { cfg with gain := gain_mode_high cfg.gain }
    else if s = "low" then some { cfg with gain := gain_mode_low cfg.gain }
    else none
  | .gain v =>
    if v < 0 ∨ 127 < v then none
    else some { cfg with gain := gain_set_value cfg.gain v.toNat }
  | .att v => if 63 < v then none else some { cfg with att := v }
  | .queuedepth v =>
    if v < 1 ∨ 64 < v then none else some { cfg with queuedepth := v }
  | .reqsize v =>
    if v < 1 ∨ 64 < v then none else some { cfg with reqsize := v }

/-- The whole option loop (lines 202-320): options are processed in order;
a long-form flag option ends the loop through the `break` at line 229, its
flag store applied and every remaining option silently dropped; otherwise
the `switch` runs and the first out-of-range value returns 0 from `main`. -/
def parseOpts (cfg : Config) : List CliOpt → Option Config
  | [] => some cfg
  | o :: rest =>
    if isFlagLongOpt o then some (applyFlagLong cfg o)
    else
      match applyOpt cfg o with
      | none => none
      | some cfg2 => parseOpts cfg2 rest

/-- The fixed configuration command sequence of lines 478-497 (the GPIO
argument is determined by the dither and randomizer flags). -/
def deviceCommands (cfg : Config) : List Command :=
  [ Command.GPIOFX3 ((if cfg.dither then 1 else 0) + (if cfg.randomizer then 2 else 0)),
    Command.DAT31_ATT cfg.att,
    Command.AD8340_VGA cfg.gain,
    Command.STARTADC cfg.samplerate,
    Command.STARTFX3,
    Command.TUNERSTDBY ]

/-- `main`'s observable outcome: its return value, the device commands it
issues, and whether it reported a configuration error and stopped early. -/
structure MainOutcome where
  exitCode : Nat
  commands : List Command
  configErrorReported : Bool
  deriving DecidableEq

/-- `main` up to the device-command sequence.  Every `return 0` inside the
option loop happens before `libusb_init` and before any command is sent;
all device I/O (lines 361-540) is guarded by `if (firmware)`, so when no
`-f` option set the path pointer, `main` falls through issuing no command
and returns 0. -/
def rx888_main (opts : List CliOpt) : MainOutcome :=
  match parseOpts initConfig opts with
  | none => { exitCode := 0, commands := [], configErrorReported := true }
  | some cfg =>
    { exitCode := 0,
      commands := if cfg.firmware then deviceCommands cfg else [],
      configErrorReported := false }

/-- The out-of-range configuration values named by the specification. -/
def isInvalidOpt : CliOpt → Bool
  | .samplerate v => v < 1000000
  | .gainmode s => !(s = "high" || s = "low")
  | .gain v => v < 0 || 127 < v
  | .att v => 63 < v
  | .queuedepth v => v < 1 || 64 < v
  | .reqsize v => v < 1 || 64 < v
  | _ => false

theorem parseOpts_flagLong_stops (cfg : Config) (o : CliOpt) (rest : List CliOpt)
    (h : isFlagLongOpt o = true) :
    parseOpts cfg (o :: rest) = some (applyFlagLong cfg o) := by
  simp [parseOpts, h]

theorem transfer_callback_stop (st : CbState) (status : TransferStatus)
    (buf : List Nat) (wr sr : Int) (h : st.stop_transfers = true) :
    (transfer_callback st status buf wr sr).resubmitCalled = false ∧
    (transfer_callback st status buf wr sr).state.xfers_in_progress =
      st.xfers_in_progress - 1 ∧
    (transfer_callback st status buf wr sr).state.stop_transfers = true := by
  cases status <;> simp [transfer_callback, h]

theorem drainLoop_stop (events : List DrainEvent) (st : CbState)
    (h : st.stop_transfers = true) :
    (drainLoop st events).xfers_in_progress =
      st.xfers_in_progress - events.length ∧
    (drainLoop st events).stop_transfers = true := by
  induction events generalizing st with
  | nil => simpa [drainLoop] using h
  | cons e rest ih =>
    have hc := transfer_callback_stop st e.status e.buf e.writeRet e.submitRet h
    have := ih (transfer_callback st e.status e.buf e.writeRet e.submitRet).state hc.2.2
    rw [drainLoop, this.1, hc.2.1]
    refine ⟨by simp; ring, this.2⟩

/-! ## The claims -/

/-- C1: the sample post-processing transform is an involution: for every
even-length byte buffer, applying the output-whitening reversal (for each
16-bit little-endian sample S, XOR with 0xfffe exactly when bit 0 of S is
set) twice yields a buffer byte-for-byte equal to the original. -/
theorem C1_randomize_involution (buf : List Nat) (hbytes : ∀ b ∈ buf, b < 256)
    (heven : buf.length % 2 = 0) : randomize (randomize buf) = buf :=
  randomize_involutive buf hbytes

theorem C1_witness :
    (∀ b ∈ [18, 52, 255, 1], b < 256) ∧ [18, 52, 255, 1].length % 2 = 0 ∧
      randomize (randomize [18, 52, 255, 1]) = [18, 52, 255, 1] :=
  ⟨by decide, by decide,
    C1_randomize_involution [18, 52, 255, 1] (by decide) (by decide)⟩

/-- C2: at every reachable state of the transfer pipeline — after initial
submission, through completion callbacks with success or failure status and
resubmissions, and through the drain loop — the in-flight counter satisfies
`0 ≤ xfers_in_progress ≤ queuedepth` and equals the number of slots
currently submitted; the `PoolStep` transitions increment it exactly when a
submission returns success and decrement it exactly once per completion. -/
theorem C2_in_flight_invariant (q : Nat) (s : PoolState) (h : PoolReachable q s) :
    s.xfers_in_progress = (countSubmitted s.slots : Int) ∧
      0 ≤ s.xfers_in_progress ∧ s.xfers_in_progress ≤ (q : Int) := by
  obtain ⟨hlen, hcount⟩ := poolInv_reachable q s h
  have hle := countSubmitted_le_length s.slots
  rw [hlen] at hle
  exact ⟨hcount, by omega, by omega⟩

theorem C2_witness :
    PoolReachable 2 (initPool 2) ∧
      (initPool 2).xfers_in_progress = (countSubmitted (initPool 2).slots : Int) ∧
      0 ≤ (initPool 2).xfers_in_progress ∧ (initPool 2).xfers_in_progress ≤ (2 : Int) :=
  ⟨Relation.ReflTransGen.refl,
    C2_in_flight_invariant 2 (initPool 2) Relation.ReflTransGen.refl⟩

/-- C3: for a completed buffer processed with the transform enabled, each
16-bit sample with bit 0 clear is unchanged, each sample with bit 0 set is
replaced by the original XOR 0xfffe, a trailing odd byte is left untouched,
and the callback forwards exactly the transformed buffer. -/
theorem C3_transform_samples :
    (∀ s : Nat, s < 65536 → s % 2 = 0 → transform_sample s = s) ∧
    (∀ s : Nat, s < 65536 → s % 2 = 1 → transform_sample s = s ^^^ 0xfffe) ∧
    (∀ (l : List Nat) (b : Nat), l.length % 2 = 0 →
      randomize (l ++ [b]) = randomize l ++ [b]) ∧
    (∀ (st : CbState) (buf : List Nat) (wr sr : Int), st.randomizer = true →
      (transfer_callback st .completed buf wr sr).state.output =
        st.output ++ randomize buf) := by
  refine ⟨fun s _ h => transform_sample_even s h,
          fun s _ h => transform_sample_odd s h,
          fun l b h => randomize_append_single l b h,
          fun st buf wr sr h => ?_⟩
  unfold transfer_callback
  cases hstop : st.stop_transfers <;> by_cases hsr : sr = 0 <;>
    simp [hstop, hsr, h]

theorem C3_witness :
    transform_sample 4660 = 4660 ∧ transform_sample 4661 = 4661 ^^^ 0xfffe ∧
      randomize ([4, 5] ++ [9]) = randomize [4, 5] ++ [9] ∧
      (transfer_callback ⟨3, 0, 0, false, true, []⟩ .completed [1, 0] 2 0).state.output =
        [] ++ randomize [1, 0] :=
  ⟨C3_transform_samples.1 4660 (by decide) (by decide),
   C3_transform_samples.2.1 4661 (by decide) (by decide),
   C3_transform_samples.2.2.1 [4, 5] 9 (by decide),
   C3_transform_samples.2.2.2 ⟨3, 0, 0, false, true, []⟩ [1, 0] 2 0 rfl⟩

/-- C4: a transfer completing with non-success status increments
`failure_count`, leaves `success_count` unchanged, forwards no bytes from
the buffer to the sink, and the slot is resubmitted (resubmission attempted,
counted in flight again exactly when the submission call succeeds) unless
`stop_transfers` is set — the failure is never fatal to the pipeline. -/
theorem C4_transfer_error_nonfatal (st : CbState) (buf : List Nat) (wr sr : Int) :
    (transfer_callback st .error buf wr sr).state.failure_count = st.failure_count + 1 ∧
    (transfer_callback st .error buf wr sr).state.success_count = st.success_count ∧
    (transfer_callback st .error buf wr sr).state.output = st.output ∧
    (transfer_callback st .error buf wr sr).wroteToSink = false ∧
    (transfer_callback st .error buf wr sr).resubmitCalled = !st.stop_transfers ∧
    (transfer_callback st .error buf wr sr).resubmitted =
      (!st.stop_transfers && decide (sr = 0)) := by
  unfold transfer_callback
  cases hstop : st.stop_transfers <;> by_cases hsr : sr = 0 <;>
    simp [hstop, hsr]

/-- C5: once `stop_transfers` is set no completion callback resubmits its
slot; the drain phase processes completions until the in-flight counter
reaches zero — one per in-flight transfer, however many there are — and
after the drain the device stop command is issued exactly once. -/
theorem C5_shutdown_drain_stop (st : CbState) (events : List DrainEvent)
    (hn : st.xfers_in_progress = (events.length : Int)) :
    (∀ (st2 : CbState) (status : TransferStatus) (buf : List Nat) (wr sr : Int),
      st2.stop_transfers = true →
        (transfer_callback st2 status buf wr sr).resubmitCalled = false) ∧
    (main_epilogue st events).1.xfers_in_progress = 0 ∧
    (main_epilogue st events).2.count Command.STOPFX3 = 1 := by
  refine ⟨fun st2 status buf wr sr h =>
    (transfer_callback_stop st2 status buf wr sr h).1, ?_, rfl⟩
  have hd := drainLoop_stop events { st with stop_transfers := true } rfl
  unfold main_epilogue
  dsimp only
  rw [hd.1]
  simp [hn]

theorem C5_witness :
    (main_epilogue ⟨2, 0, 0, false, false, []⟩
        [⟨.error, [], -1, 0⟩, ⟨.completed, [7, 8], 2, 0⟩]).1.xfers_in_progress = 0 ∧
    (main_epilogue ⟨2, 0, 0, false, false, []⟩
        [⟨.error, [], -1, 0⟩, ⟨.completed, [7, 8], 2, 0⟩]).2.count Command.STOPFX3 = 1 :=
  ⟨(C5_shutdown_drain_stop ⟨2, 0, 0, false, false, []⟩
      [⟨.error, [], -1, 0⟩, ⟨.completed, [7, 8], 2, 0⟩] (by decide)).2.1,
   (C5_shutdown_drain_stop ⟨2, 0, 0, false, false, []⟩
      [⟨.error, [], -1, 0⟩, ⟨.completed, [7, 8], 2, 0⟩] (by decide)).2.2⟩

/-- C6 as stated is false: the code truncates the fractional numerator, it
does not round it.  At requested frequency 8000000 with crystal 27000000 the
code's numerator is 194180 while `round(L * 1048575 / X) = 194181`, and the
returned frequency differs from the claim's formula evaluated with the
rounded numerator. -/
theorem C6_counterexample :
    pll_num (normalizeFreq 8000000) 27000000 = 194180 ∧
    round ((pll_rem (normalizeFreq 8000000) 27000000 * 1048575 : ℚ) / 27000000) =
      194181 ∧
    actual_freq 8000000 27000000 ≠
      (27000000 : ℚ) * ((pll_mult (normalizeFreq 8000000) 27000000 : ℚ) +
        (194181 : ℚ) / 1048575) / (pll_divider (normalizeFreq 8000000) : ℚ) := by
  have hn : normalizeFreq 8000000 = 8000000 := normalizeFreq_of_ge _ (by norm_num)
  have hr : pll_rem 8000000 27000000 = 5000000 := by decide
  have hm : pll_mult 8000000 27000000 = 33 := by decide
  have hnum : pll_num 8000000 27000000 = 194180 := by decide
  have hd : pll_divider 8000000 = 112 := by decide
  refine ⟨by rw [hn, hnum], ?_, ?_⟩
  · rw [hn, hr, round_eq, Int.floor_eq_iff]
    norm_num
  · unfold actual_freq
    dsimp only
    rw [hn, hm, hnum, hd]
    norm_num

/-- C6, amended: the clock estimator normalizes f by doubling while below
1000000, takes the even-adjusted divider `D = floor(900000000 / f)`, the PLL
frequency `P = D * f`, the multiplier `M = floor(P / X)`, the remainder
`L = P mod X`, the numerator `N = floor(L * 1048575 / X)` (truncation, not
rounding) over the fixed denominator 1048575, and returns
`X * (M + N / 1048575) / D`. -/
theorem C6_clock_estimator (f xtal : Nat) (hf : 0 < f)
    (hx : xtal = 10000000 ∨ xtal = 27000000) :
    (∃ k, normalizeFreq f = 2 ^ k * f) ∧
    1000000 ≤ normalizeFreq f ∧
    (1000000 ≤ f → normalizeFreq f = f) ∧
    pll_divider (normalizeFreq f) =
      (if (900000000 / normalizeFreq f) % 2 = 1
       then 900000000 / normalizeFreq f - 1 else 900000000 / normalizeFreq f) ∧
    pll_freq (normalizeFreq f) = pll_divider (normalizeFreq f) * normalizeFreq f ∧
    pll_mult (normalizeFreq f) xtal = pll_freq (normalizeFreq f) / xtal ∧
    pll_rem (normalizeFreq f) xtal = pll_freq (normalizeFreq f) % xtal ∧
    pll_num (normalizeFreq f) xtal =
      pll_rem (normalizeFreq f) xtal * 1048575 / xtal ∧
    actual_freq f xtal =
      (xtal : ℚ) * (((pll_freq (normalizeFreq f) / xtal : Nat) : ℚ) +
        (pll_num (normalizeFreq f) xtal : ℚ) / 1048575) /
        (pll_divider (normalizeFreq f) : ℚ) := by
  refine ⟨normalizeFreq_doubling f, normalizeFreq_ge f hf, normalizeFreq_of_ge f,
    rfl, rfl, pll_mult_eq _ _ hx, rfl, rfl, ?_⟩
  unfold actual_freq
  dsimp only
  rw [pll_mult_eq _ _ hx]

theorem C6_witness :
    (∃ k, normalizeFreq 8000000 = 2 ^ k * 8000000) ∧
    1000000 ≤ normalizeFreq 8000000 ∧
    (1000000 ≤ 8000000 → normalizeFreq 8000000 = 8000000) ∧
    pll_divider (normalizeFreq 8000000) =
      (if (900000000 / normalizeFreq 8000000) % 2 = 1
       then 900000000 / normalizeFreq 8000000 - 1
       else 900000000 / normalizeFreq 8000000) ∧
    pll_freq (normalizeFreq 8000000) =
      pll_divider (normalizeFreq 8000000) * normalizeFreq 8000000 ∧
    pll_mult (normalizeFreq 8000000) 27000000 =
      pll_freq (normalizeFreq 8000000) / 27000000 ∧
    pll_rem (normalizeFreq 8000000) 27000000 =
      pll_freq (normalizeFreq 8000000) % 27000000 ∧
    pll_num (normalizeFreq 8000000) 27000000 =
      pll_rem (normalizeFreq 8000000) 27000000 * 1048575 / 27000000 ∧
    actual_freq 8000000 27000000 =
      (27000000 : ℚ) * (((pll_freq (normalizeFreq 8000000) / 27000000 : Nat) : ℚ) +
        (pll_num (normalizeFreq 8000000) 27000000 : ℚ) / 1048575) /
        (pll_divider (normalizeFreq 8000000) : ℚ) :=
  C6_clock_estimator 8000000 27000000 (by decide) (Or.inr rfl)

/-- C7: for requested rate 8000000 Hz with crystal 27000000 Hz the
normalization loop leaves the frequency unchanged, the divider is 112, the
PLL frequency is 896000000, and the achieved ADC frequency is within 1 Hz
of 8000000. -/
theorem C7_scenario_8MHz :
    normalizeFreq 8000000 = 8000000 ∧
    pll_divider 8000000 = 112 ∧
    pll_freq 8000000 = 896000000 ∧
    |actual_freq 8000000 27000000 - 8000000| < 1 := by
  have hn : normalizeFreq 8000000 = 8000000 := normalizeFreq_of_ge _ (by norm_num)
  have hm : pll_mult 8000000 27000000 = 33 := by decide
  have hnum : pll_num 8000000 27000000 = 194180 := by decide
  have hd : pll_divider 8000000 = 112 := by decide
  refine ⟨hn, hd, by decide, ?_⟩
  have hval : actual_freq 8000000 27000000 =
      (27000000 : ℚ) * ((33 : ℚ) + (194180 : ℚ) / 1048575) / 112 := by
    unfold actual_freq
    dsimp only
    rw [hn, hm, hnum, hd]
    norm_num
  rw [hval, abs_sub_lt_iff]
  norm_num

/-- C8 as stated is false: a partial write is not detected.  With two bytes
delivered and `write` returning 1 (one byte short), the callback logs
nothing and counts nothing — its resulting state is identical to the state
after a complete write. -/
theorem C8_counterexample :
    (transfer_callback ⟨3, 0, 0, false, false, []⟩ .completed [2, 3] 1 0).loggedWriteError
        = false ∧
    (transfer_callback ⟨3, 0, 0, false, false, []⟩ .completed [2, 3] 1 0).loggedTransferError
        = false ∧
    (transfer_callback ⟨3, 0, 0, false, false, []⟩ .completed [2, 3] 1 0).state =
      (transfer_callback ⟨3, 0, 0, false, false, []⟩ .completed [2, 3] 2 0).state := by
  decide

/-- C8, amended: a sink write that fails with a negative return value is
logged (a partial write is not detected, and no counter records write
failures in either case); the pipeline continues — resubmission is attempted
exactly when shutdown was not requested — and the in-flight bookkeeping and
both counters are unaffected by the write outcome. -/
theorem C8_write_outcome_ignored (st : CbState) (buf : List Nat) (wr wr' sr : Int) :
    (transfer_callback st .completed buf wr sr).loggedWriteError = decide (wr < 0) ∧
    (transfer_callback st .completed buf wr sr).resubmitCalled = !st.stop_transfers ∧
    (transfer_callback st .completed buf wr sr).state.xfers_in_progress =
      (transfer_callback st .completed buf wr' sr).state.xfers_in_progress ∧
    (transfer_callback st .completed buf wr sr).state.success_count =
      (transfer_callback st .completed buf wr' sr).state.success_count ∧
    (transfer_callback st .completed buf wr sr).state.failure_count =
      (transfer_callback st .completed buf wr' sr).state.failure_count ∧
    (transfer_callback st .completed buf wr sr).resubmitted =
      (transfer_callback st .completed buf wr' sr).resubmitted := by
  unfold transfer_callback
  cases hstop : st.stop_transfers <;> by_cases hsr : sr = 0 <;>
    simp [hstop, hsr]

/-- C9: the claim fails on the code through the misplaced `break` at line
229: a long-form flag option (`--verbose`, `--firmware`, `--dither`,
`--rand`, `--refclock-10M`) makes `getopt_long` return 0, and the `break` —
inside `if (c == 0)` directly within `while (1)` — ends option parsing, so
every later option is skipped unvalidated.  Evaluating the model at
`-f img --dither --gain 999`: gain 999 is out of range, yet nothing is
reported, `main` proceeds to device I/O with the default gain byte, and the
commands issued are exactly those for the configuration in which the
invalid gain was never examined. -/
theorem C9_invalid_after_flag_option_unchecked :
    isInvalidOpt (CliOpt.gain 999) = true ∧
    rx888_main [CliOpt.firmware false, CliOpt.dither true, CliOpt.gain 999] =
      { exitCode := 0,
        commands := deviceCommands
          { initConfig with firmware := true, dither := true },
        configErrorReported := false } ∧
    (rx888_main [CliOpt.firmware false, CliOpt.dither true,
        CliOpt.gain 999]).commands ≠ [] ∧
    (rx888_main [CliOpt.firmware false, CliOpt.dither true,
        CliOpt.gain 999]).configErrorReported = false := by
  decide

set_option maxRecDepth 2048 in
theorem gain_byte_ops : ∀ g : Nat, g < 256 →
    gain_mode_high g = 128 + g % 128 ∧ gain_mode_low g = g % 128 ∧
    g &&& 0xffffff80 = 128 * (g / 128) := by
  decide

set_option maxRecDepth 2048 in
theorem lor_128_small : ∀ v : Nat, v < 128 → 128 ||| v = 128 + v := by
  decide

theorem gain_set_value_eq (g v : Nat) (hg : g < 256) (hv : v ≤ 127) :
    gain_set_value g v = 128 * (g / 128) + v := by
  unfold gain_set_value
  rw [(gain_byte_ops g hg).2.2]
  have hb : g / 128 = 0 ∨ g / 128 = 1 := by omega
  rcases hb with hb | hb
  · rw [hb, Nat.mul_zero, Nat.zero_add]
    exact Nat.zero_or v
  · rw [hb, Nat.mul_one]
    exact lor_128_small v (by omega)

/-- C10: the gain mode and value are packed into one byte defaulting to
0x80; mode high sets bit 7 and mode low clears it, both leaving bits 0-6
unchanged; a gain value v in 0-127 replaces exactly bits 0-6 and preserves
the mode bit; and the two updates commute, so the order of the options does
not matter. -/
theorem C10_gain_packing :
    gain_default = 0x80 ∧
    (∀ g : Nat, g < 256 →
      gain_mode_high g % 128 = g % 128 ∧ gain_mode_high g / 128 = 1 ∧
      gain_mode_high g < 256 ∧
      gain_mode_low g % 128 = g % 128 ∧ gain_mode_low g / 128 = 0 ∧
      gain_mode_low g < 256) ∧
    (∀ g : Nat, g < 256 → ∀ v : Nat, v ≤ 127 →
      gain_set_value g v % 128 = v ∧ gain_set_value g v / 128 = g / 128 ∧
      gain_set_value g v < 256) ∧
    (∀ g : Nat, g < 256 → ∀ v : Nat, v ≤ 127 →
      gain_set_value (gain_mode_high g) v = gain_mode_high (gain_set_value g v) ∧
      gain_set_value (gain_mode_low g) v = gain_mode_low (gain_set_value g v)) ∧
    (∀ v : Nat, v ≤ 127 →
      gain_set_value (gain_mode_high gain_default) v = 128 + v ∧
      gain_set_value (gain_mode_low gain_default) v = v) := by
  have hmode : ∀ g : Nat, g < 256 →
      gain_mode_high g = 128 + g % 128 ∧ gain_mode_low g = g % 128 :=
    fun g hg => ⟨(gain_byte_ops g hg).1, (gain_byte_ops g hg).2.1⟩
  refine ⟨rfl, ?_, ?_, ?_, ?_⟩
  · intro g hg
    obtain ⟨hh, hl⟩ := hmode g hg
    rw [hh, hl]
    omega
  · intro g hg v hv
    rw [gain_set_value_eq g v hg hv]
    omega
  · intro g hg v hv
    obtain ⟨hh, hl⟩ := hmode g hg
    have hsv := gain_set_value_eq g v hg hv
    have hsv256 : gain_set_value g v < 256 := by omega
    obtain ⟨hh2, hl2⟩ := hmode (gain_set_value g v) hsv256
    constructor
    · rw [hh, gain_set_value_eq (128 + g % 128) v (by omega) hv, hh2, hsv]
      omega
    · rw [hl, gain_set_value_eq (g % 128) v (by omega) hv, hl2, hsv]
      omega
  · intro v hv
    obtain ⟨hh, hl⟩ := hmode gain_default (by norm_num [gain_default])
    constructor
    · rw [hh]
      rw [gain_set_value_eq (128 + gain_default % 128) v (by norm_num [gain_default]) hv]
      norm_num [gain_default]
    · rw [hl]
      rw [gain_set_value_eq (gain_default % 128) v (by norm_num [gain_default]) hv]
      norm_num [gain_default]

theorem C10_witness :
    (gain_mode_high 5 % 128 = 5 % 128 ∧ gain_mode_high 5 / 128 = 1 ∧
      gain_mode_high 5 < 256 ∧
      gain_mode_low 5 % 128 = 5 % 128 ∧ gain_mode_low 5 / 128 = 0 ∧
      gain_mode_low 5 < 256) ∧
    (gain_set_value 133 7 % 128 = 7 ∧ gain_set_value 133 7 / 128 = 133 / 128 ∧
      gain_set_value 133 7 < 256) ∧
    (gain_set_value (gain_mode_high 133) 7 = gain_mode_high (gain_set_value 133 7) ∧
      gain_set_value (gain_mode_low 133) 7 = gain_mode_low (gain_set_value 133 7)) ∧
    (gain_set_value (gain_mode_high gain_default) 3 = 128 + 3 ∧
      gain_set_value (gain_mode_low gain_default) 3 = 3) :=
  ⟨C10_gain_packing.2.1 5 (by decide),
   C10_gain_packing.2.2.1 133 (by decide) 7 (by decide),
   C10_gain_packing.2.2.2.1 133 (by decide) 7 (by decide),
   C10_gain_packing.2.2.2.2 3 (by decide)⟩
